import Mathlib

/-!
Verification development for the Lavandowski AML analysis pipeline.

Shallow embedding of the pure logic of `functions.py` (score extraction and
decision mapping in `format_export_payload`, counterparty analysis in
`analyze_counterparties` / `extract_processes_and_sanctions`, and the report
assembly in `merchant_report` / `cardholder_report`).  Text is modelled as
`List Char`, Python dictionaries with optional keys as structures with
`Option` fields, and monetary amounts as integers (the claims under study
are order- and equality-theoretic, so exact integer amounts model the
`float` amounts faithfully).  External collaborators (BigQuery, the BDC
identity lookup) are passed in as explicit parameters.
-/

namespace Lavandowski

/-! ### Python string primitives -/

/-- Python `\s` whitespace class (ASCII part, as used by `re`). -/
def isSpaceCh (c : Char) : Bool :=
  c == ' ' || c == '\t' || c == '\n' || c == '\r' || c == '\x0b' || c == '\x0c'

/-- Python `\d` digit class (ASCII digits). -/
def isDigitCh (c : Char) : Bool :=
  48 ≤ c.toNat && c.toNat ≤ 57

/-- Model of Python `str.lower` restricted to ASCII letters plus the accented
uppercase letters occurring in Portuguese text. -/
def pyLower (c : Char) : Char :=
  if 65 ≤ c.toNat && c.toNat ≤ 90 then Char.ofNat (c.toNat + 32)
  else if c == 'Á' then 'á' else if c == 'À' then 'à' else if c == 'Â' then 'â'
  else if c == 'Ã' then 'ã' else if c == 'Ä' then 'ä' else if c == 'Ç' then 'ç'
  else if c == 'É' then 'é' else if c == 'Ê' then 'ê' else if c == 'Í' then 'í'
  else if c == 'Ó' then 'ó' else if c == 'Ô' then 'ô' else if c == 'Õ' then 'õ'
  else if c == 'Ú' then 'ú' else if c == 'Ü' then 'ü' else c

/-- Lowercase a whole text (model of `str.lower`). -/
def lowerL (l : List Char) : List Char := l.map pyLower

/-- `startsWith needle hay` holds when `hay` begins with `needle`. -/
def startsWith : List Char → List Char → Bool
  | [], _ => true
  | _ :: _, [] => false
  | a :: as, b :: bs => a == b && startsWith as bs

/-- Model of the Python substring test `needle in hay`. -/
def containsSub (needle : List Char) : List Char → Bool
  | [] => startsWith needle []
  | c :: t => startsWith needle (c :: t) || containsSub needle t

/-- Numeric value of a digit string, as Python `int` on a `\d+` match. -/
def natOfDigits (l : List Char) : Nat :=
  l.foldl (fun a c => a * 10 + (c.toNat - 48)) 0

/-! ### A small backtracking matcher for the two score-extraction regexes

`format_export_payload` extracts the risk score with `re.search` and the
patterns

  pattern 1:  `(?:[Rr]isco\s+(?:de\s+[Ll]avagem\s+(?:de\s+)?[Dd]inheiro)?|`
              `[Cc]lassificação\s+(?:de\s+)?[Rr]isco):?\s*(\d+)(?:/|\s*de\s*)10`
  pattern 2:  `[Ss]core:?\s*(\d+)(?:/|\s*de\s*)10`

A matcher maps an input to the list of possible remainders after consuming a
match, in the preference order of the Python engine (alternation in written
order, quantifiers greedy, longest first); sequencing explores them
depth-first, which reproduces the backtracking order of `re`. -/

/-- Matchers return all remainders after a match, most preferred first. -/
abbrev Matcher := List Char → List (List Char)

/-- Literal text. -/
def litM (pat : List Char) : Matcher := fun input =>
  if pat.isPrefixOf input then [input.drop pat.length] else []

/-- Character class such as `[Rr]`. -/
def clsM (cs : List Char) : Matcher := fun input =>
  match input with
  | c :: rest => if cs.contains c then [rest] else []
  | [] => []

/-- Sequencing of two matchers (depth-first, preserving preference order). -/
def seqM (m1 m2 : Matcher) : Matcher := fun input => (m1 input).flatMap m2

/-- Alternation, left branch preferred. -/
def altM (m1 m2 : Matcher) : Matcher := fun input => m1 input ++ m2 input

/-- Greedy optional group `(?:...)?`: presence preferred over absence. -/
def optM (m : Matcher) : Matcher := fun input => m input ++ [input]

/-- Greedy `\s+`: consumes 1..n whitespace characters, longest first. -/
def ws1M : Matcher := fun input =>
  let n := (input.takeWhile isSpaceCh).length
  (List.range n).map (fun k => input.drop (n - k))

/-- Greedy `\s*`: like `\s+` but also allows consuming nothing (least
preferred). -/
def ws0M : Matcher := fun input => ws1M input ++ [input]

/-- Greedy capture `(\d+)`: all nonempty digit prefixes with their values,
longest first. -/
def digitSplits (input : List Char) : List (Nat × List Char) :=
  let ds := input.takeWhile isDigitCh
  let n := ds.length
  (List.range n).map (fun k => (natOfDigits (ds.take (n - k)), input.drop (n - k)))

/-- The common suffix `(?:/|\s*de\s*)10` of both patterns. -/
def sufM : Matcher :=
  seqM (altM (litM ['/']) (seqM ws0M (seqM (litM "de".data) ws0M))) (litM "10".data)

/-- First alternative of pattern 1:
`[Rr]isco\s+(?:de\s+[Ll]avagem\s+(?:de\s+)?[Dd]inheiro)?`. -/
def riscoAltM : Matcher :=
  seqM (clsM ['R', 'r'])
    (seqM (litM "isco".data)
      (seqM ws1M
        (optM
          (seqM (litM "de".data)
            (seqM ws1M
              (seqM (clsM ['L', 'l'])
                (seqM (litM "avagem".data)
                  (seqM ws1M
                    (seqM (optM (seqM (litM "de".data) ws1M))
                      (seqM (clsM ['D', 'd']) (litM "inheiro".data)))))))))))

/-- Second alternative of pattern 1: `[Cc]lassificação\s+(?:de\s+)?[Rr]isco`. -/
def classifAltM : Matcher :=
  seqM (clsM ['C', 'c'])
    (seqM (litM "lassificação".data)
      (seqM ws1M
        (seqM (optM (seqM (litM "de".data) ws1M))
          (seqM (clsM ['R', 'r']) (litM "isco".data)))))

/-- Pattern 1 up to (excluding) the capture group: the alternation, then
`:?\s*`. -/
def riskPrefixM : Matcher :=
  seqM (altM riscoAltM classifAltM) (seqM (optM (litM [':'])) ws0M)

/-- Pattern 2 up to (excluding) the capture group: `[Ss]core:?\s*`. -/
def scorePrefixM : Matcher :=
  seqM (clsM ['S', 's']) (seqM (litM "core".data) (seqM (optM (litM [':'])) ws0M))

/-- Try `pre (\d+) (?:/|\s*de\s*)10` anchored at the start of `input`,
returning the captured value of the first successful backtracking branch. -/
def matchAt (pre : Matcher) (input : List Char) : Option Nat :=
  (pre input).findSome? fun r1 =>
    (digitSplits r1).findSome? fun vr =>
      if (sufM vr.2).isEmpty then none else some vr.1

/-- Model of `re.search`: try every start position from the left, taking the
captured score of the first position that matches. -/
def searchScore (pre : Matcher) : List Char → Option Nat
  | [] => matchAt pre []
  | c :: rest =>
    match matchAt pre (c :: rest) with
    | some v => some v
    | none => searchScore pre rest

/-! ### `format_export_payload` -/

/-- Step 1 of `format_export_payload`:
`clean_description = re.sub(r'[#\*\_]', '', description)`. -/
def cleanDescription (description : List Char) : List Char :=
  description.filter (fun c => !(c == '#' || c == '*' || c == '_'))

/-- The fixed error markers checked by `format_export_payload`. -/
def error_indicators : List (List Char) :=
  [ "Não consigo tankar este caso".data
  , "An error occurred".data
  , "muitas transações".data
  , "context_length_exceeded".data
  , "token limit".data
  , "chame um analista humano".data ]

/-- `has_error = any(ind.lower() in clean_description.lower() for ind in ...)`. -/
def has_error (clean_description : List Char) : Bool :=
  error_indicators.any fun ind => containsSub (lowerL ind) (lowerL clean_description)

/-- Model of the score extraction: pattern 1 via `re.search`, else pattern 2,
else the default `risk_score = 0`. -/
def extractRiskScore (clean_description : List Char) : Nat :=
  match searchScore riskPrefixM clean_description with
  | some v => v
  | none =>
    match searchScore scorePrefixM clean_description with
    | some v => v
    | none => 0

/-- The score-to-decision if-chain of `format_export_payload` (conclusion and
priority components; the description side effects are in `descAfterScore`,
with the same guards). -/
def scoreDecision (risk_score : Nat) : String × String :=
  if risk_score ≤ 5 then ("normal", "high")
  else if risk_score ≤ 6 then ("normal", "high")
  else if risk_score ≤ 8 then ("suspicious", "mid")
  else if risk_score ≤ 9 then ("suspicious", "high")
  else ("offense", "high")

/-- Note appended in the score-6 branch. -/
def obsNoteMedio : List Char :=
  "\n\nOBS: Caso de médio risco que requer monitoramento contínuo.".data

/-- Note appended in the score-7/8 branch. -/
def obsNoteMedioAlto : List Char :=
  ("\n\nOBS: Caso de risco médio-alto que requer validação do negócio, "
    ++ "sem necessidade de bloqueio temporário.").data

/-- The description side effects of the score-to-decision if-chain: the 6 and
7-8 branches append a fixed note when it is not already present. -/
def descAfterScore (risk_score : Nat) (clean_description : List Char) : List Char :=
  if risk_score ≤ 5 then clean_description
  else if risk_score ≤ 6 then
    (if containsSub "Caso de médio risco".data clean_description then clean_description
     else clean_description ++ obsNoteMedio)
  else if risk_score ≤ 8 then
    (if containsSub "Caso de risco médio-alto".data clean_description then clean_description
     else clean_description ++ obsNoteMedioAlto)
  else clean_description

/-- The override phrase `"normalizar o caso"` tested against the lowercased
description. -/
def containsNormalizar (l : List Char) : Bool :=
  containsSub "normalizar o caso".data (lowerL l)

/-- The export payload dictionary built by `format_export_payload`. -/
structure Payload where
  user_id : Int
  description : List Char
  analysis_type : String
  conclusion : String
  priority : String
  automatic_pipeline : Bool
  offense_group : String
  offense_name : String
  related_analyses : List Int
deriving DecidableEq

/-- Shallow embedding of `format_export_payload` (functions.py, lines
1017-1106).  The `business_validation` parameter is accepted and unused,
exactly as in the source. -/
def format_export_payload (user_id : Int) (description : List Char)
    (business_validation : Bool) : Payload :=
  let clean_description := cleanDescription description
  if has_error clean_description then
    { user_id := user_id
      description := clean_description
      analysis_type := "manual"
      conclusion := ""
      priority := "high"
      automatic_pipeline := true
      offense_group := "illegal_activity"
      offense_name := "money_laundering"
      related_analyses := [] }
  else
    let risk_score := extractRiskScore clean_description
    let dec := scoreDecision risk_score
    let clean_description := descAfterScore risk_score clean_description
    let conclusion :=
      if containsNormalizar clean_description && !(dec.1 == "offense") then "normal" else dec.1
    { user_id := user_id
      description := clean_description
      analysis_type := "manual"
      conclusion := conclusion
      priority := dec.2
      automatic_pipeline := true
      offense_group := "illegal_activity"
      offense_name := "money_laundering"
      related_analyses := [] }

/-! ### BDC lookup response model

The JSON response consumed by `extract_processes_and_sanctions`.  Optional
dictionary keys become `Option` fields; a dictionary that Python treats as
falsy (absent or empty) is `none`. -/

/-- `Details` sub-dictionary of a sanctions-history entry. -/
structure SancDetails where
  warrantDescription : Option String
deriving DecidableEq

/-- One entry of `KycData.SanctionsHistory`. -/
structure SanctionEntry where
  typ : Option String
  standardizedSanctionType : Option String
  source : Option String
  details : Option SancDetails
  matchRate : Option Int
deriving DecidableEq

/-- One entry of `KycData.PEPHistory`. -/
structure PepEntry where
  description : Option String
deriving DecidableEq

/-- The `KycData` dictionary. -/
structure Kyc where
  pepHistory : List PepEntry
  sanctionsHistory : List SanctionEntry
  isCurrentlyPEP : Bool
  isCurrentlySanctioned : Bool
deriving DecidableEq

/-- One entry of `Processes.Lawsuits`. -/
structure Lawsuit where
  number : Option String
  courtName : Option String
  mainSubject : Option String
  typ : Option String
  courtLevel : Option String
  courtType : Option String
  courtDistrict : Option String
deriving DecidableEq

/-- The `Processes` dictionary. -/
structure ProcessesData where
  lawsuits : List Lawsuit
deriving DecidableEq

/-- The `BasicData` dictionary. -/
structure BasicData where
  taxIdNumber : Option String
  name : Option String
deriving DecidableEq

/-- One element of the `Result` array. -/
structure Person where
  basicData : Option BasicData
  processes : Option ProcessesData
  kycData : Option Kyc
deriving DecidableEq

/-- A BDC response dictionary; the `Result` key may be absent. -/
structure BDC where
  result : Option (List Person)
deriving DecidableEq

/-- The value returned by the lookup (`analyze_document`); `none` models a
falsy response. -/
abbrev BDCResult := Option BDC

/-- The process dictionary appended per lawsuit (fields defaulted to `''`). -/
structure ProcessInfo where
  process_number : String
  court : String
  subject : String
  typ : String
  court_level : String
  court_type : String
  district : String
deriving DecidableEq

/-- Build one `ProcessInfo` from a lawsuit, as in the loop over
`processes_to_add`. -/
def mkProcessInfo (p : Lawsuit) : ProcessInfo :=
  { process_number := p.number.getD ""
    court := p.courtName.getD ""
    subject := p.mainSubject.getD ""
    typ := p.typ.getD ""
    court_level := p.courtLevel.getD ""
    court_type := p.courtType.getD ""
    district := p.courtDistrict.getD "" }

/-- A sanction-like signal appended to the `sanctions` list.  The four
constructors record the four distinguishable dictionary shapes appended by
the code: a PEP-history entry, a (MatchRate-filtered) sanctions-history
entry, and the two current-status flags. -/
inductive SanctionSignal where
  | pep (description : String)
  | history (typ standardizedType source description : String) (matchRate : Int)
  | currentPEP
  | currentSanction
deriving DecidableEq

/-- Build the dictionary appended for a sanctions-history entry with
`MatchRate == 100`. -/
def mkHistorySignal (s : SanctionEntry) : SanctionSignal :=
  .history (s.typ.getD "") (s.standardizedSanctionType.getD "") (s.source.getD "")
    (match s.details with
     | some d => d.warrantDescription.getD ""
     | none => "")
    (s.matchRate.getD 0)

/-- The sanctions collection of `extract_processes_and_sanctions`: PEP
history, then sanctions history filtered to `MatchRate == 100`, then the two
current-status flags. -/
def collectSanctions (kyc_data : Option Kyc) : List SanctionSignal :=
  match kyc_data with
  | none => []
  | some k =>
    k.pepHistory.map (fun p => .pep (p.description.getD ""))
      ++ (k.sanctionsHistory.filter (fun s => s.matchRate.getD 0 == 100)).map mkHistorySignal
      ++ (if k.isCurrentlyPEP then [.currentPEP] else [])
      ++ (if k.isCurrentlySanctioned then [.currentSanction] else [])

/-- `processes_data.get('Lawsuits', []) if processes_data else []`. -/
def lawsuitsOf (person_data : Person) : List Lawsuit :=
  match person_data.processes with
  | some pd => pd.lawsuits
  | none => []

/-- The per-counterparty analysis dictionary (before the transaction fields
are added). -/
structure Analysis where
  document : Option String
  name : Option String
  processes : List ProcessInfo
  sanctions : List SanctionSignal
  has_processes : Bool
  has_sanctions : Bool
  risk_level : String
deriving DecidableEq

/-- The default analysis returned on an invalid or empty BDC result. -/
def emptyAnalysis : Analysis :=
  { document := none, name := none, processes := [], sanctions := []
    has_processes := false, has_sanctions := false, risk_level := "BAIXO" }

/-- Shallow embedding of `extract_processes_and_sanctions` (functions.py,
lines 188-334). -/
def extract_processes_and_sanctions (bdc_result : BDCResult) : Analysis :=
  match bdc_result with
  | none => emptyAnalysis
  | some b =>
    match b.result with
    | none => emptyAnalysis
    | some [] => emptyAnalysis
    | some (person_data :: _) =>
      let document :=
        match person_data.basicData with
        | some bd => some (bd.taxIdNumber.getD "")
        | none => none
      let name :=
        match person_data.basicData with
        | some bd => some (bd.name.getD "")
        | none => none
      let lawsuits := lawsuitsOf person_data
      let has_processes := !lawsuits.isEmpty
      let processes := (lawsuits.take 10).map mkProcessInfo
      let sanctions := collectSanctions person_data.kycData
      let has_sanctions := !sanctions.isEmpty
      let risk_level :=
        if has_sanctions then "ALTO"
        else if has_processes && decide (3 < processes.length) then "MÉDIO"
        else if has_processes then "BAIXO-MÉDIO"
        else "BAIXO"
      { document := document, name := name, processes := processes
        sanctions := sanctions, has_processes := has_processes
        has_sanctions := has_sanctions, risk_level := risk_level }

/-- The first person of a BDC result, when the result is valid and
nonempty. -/
def personOf (bdc_result : BDCResult) : Option Person :=
  match bdc_result with
  | none => none
  | some b =>
    match b.result with
    | none => none
    | some [] => none
    | some (person_data :: _) => some person_data

/-- The raw `SanctionsHistory` list reached by the extraction path. -/
def sanctionsHistoryOf (bdc_result : BDCResult) : List SanctionEntry :=
  match (personOf bdc_result).bind (·.kycData) with
  | some k => k.sanctionsHistory
  | none => []

/-- A lookup outcome carrying no person data: a falsy response, a response
without a `Result` field, or an empty `Result` array. -/
def lookupFailed (r : BDCResult) : Bool :=
  match r with
  | none => true
  | some b =>
    match b.result with
    | none => true
    | some [] => true
    | some (_ :: _) => false

/-! ### `analyze_counterparties` -/

/-- A PIX concentration record as consumed by `analyze_counterparties`
(and produced by the report builders).  Every field the code reads through
`dict.get` is optional. -/
structure Tx where
  transaction_type : String
  pix_amount : Option Int
  pix_amount_atypical_hours : Option Int
  created_at : Option String
  party : Option String
  party_document_number : Option String
  gateway_document_number : Option String
  document_number : Option String
  cpf : Option String
  cnpj : Option String
  counterparty_document : Option String
  payer_document : Option String
  receiver_document : Option String
  origin_document : Option String
  destination_document : Option String
deriving DecidableEq

/-- The sort key `float(x.get('pix_amount', 0))`. -/
def amtOf (t : Tx) : Int := t.pix_amount.getD 0

/-- Stable descending insertion: `x` goes in front of the first element whose
amount is not larger, so equal amounts keep their original order. -/
def insertTx (x : Tx) : List Tx → List Tx
  | [] => [x]
  | y :: ys => if amtOf x < amtOf y then y :: insertTx x ys else x :: y :: ys

/-- Model of `sorted(lst, key=lambda x: float(x.get('pix_amount', 0)),
reverse=True)`: a stable sort, descending by amount. -/
def sortDesc (l : List Tx) : List Tx := l.foldr insertTx []

/-- Model of Python `str.strip()`: drop whitespace from both ends. -/
def stripStr (s : String) : String :=
  String.mk (((s.data.dropWhile isSpaceCh).reverse.dropWhile isSpaceCh).reverse)

/-- `extract_document_from_transaction`: first present and truthy field from
the fixed priority list, stripped. -/
def extract_document_from_transaction (t : Tx) : Option String :=
  let pick : Option String → Option String → Option String := fun o rest =>
    match o with
    | some s => if s ≠ "" then some (stripStr s) else rest
    | none => rest
  pick t.party_document_number
    (pick t.gateway_document_number
      (pick t.document_number
        (pick t.cpf
          (pick t.cnpj
            (pick t.counterparty_document
              (pick t.payer_document
                (pick t.receiver_document
                  (pick t.origin_document
                    (pick t.destination_document none)))))))))

/-- Whether the per-transaction `if document:` guard passes (a document was
extracted and is nonempty after stripping). -/
def docFound (t : Tx) : Bool :=
  ((extract_document_from_transaction t).getD "") != ""

/-- A counterparty risk profile: the analysis dictionary after the
transaction fields are added. -/
structure Profile where
  document : Option String
  name : Option String
  processes : List ProcessInfo
  sanctions : List SanctionSignal
  has_processes : Bool
  has_sanctions : Bool
  risk_level : String
  transaction_amount : Int
  transaction_date : String
  transaction_type : String
  party_name : String
deriving DecidableEq

/-- Attach the transaction fields to an analysis, as done after
`extract_processes_and_sanctions` returns. -/
def buildProfile (a : Analysis) (t : Tx) (ty : String) : Profile :=
  { document := a.document, name := a.name, processes := a.processes
    sanctions := a.sanctions, has_processes := a.has_processes
    has_sanctions := a.has_sanctions, risk_level := a.risk_level
    transaction_amount := t.pix_amount.getD 0
    transaction_date := t.created_at.getD ""
    transaction_type := ty
    party_name := t.party.getD "" }

/-- The aggregate summary dictionary. -/
structure Summary where
  total_counterparties_analyzed : Nat
  counterparties_with_processes : Nat
  counterparties_with_sanctions : Nat
  high_risk_counterparties : Nat
deriving DecidableEq

/-- The `counterparty_analysis` dictionary. -/
structure CounterpartyAnalysis where
  top_cash_in_analysis : List Profile
  top_cash_out_analysis : List Profile
  analysis_enabled : Bool
  summary : Summary
deriving DecidableEq

/-- The four summary increments performed after appending a profile. -/
def updateSummary (s : Summary) (a : Profile) : Summary :=
  { total_counterparties_analyzed := s.total_counterparties_analyzed + 1
    counterparties_with_processes :=
      s.counterparties_with_processes + (if a.has_processes then 1 else 0)
    counterparties_with_sanctions :=
      s.counterparties_with_sanctions + (if a.has_sanctions then 1 else 0)
    high_risk_counterparties :=
      s.high_risk_counterparties
        + (if a.risk_level == "ALTO" || a.risk_level == "MÉDIO" then 1 else 0) }

/-- One iteration of the cash-in loop of `analyze_counterparties`. -/
def stepCashIn (lookup : String → BDCResult) (st : CounterpartyAnalysis) (t : Tx) :
    CounterpartyAnalysis :=
  match extract_document_from_transaction t with
  | none => st
  | some document =>
    if document = "" then st
    else
      let analysis := buildProfile (extract_processes_and_sanctions (lookup document)) t "CASH_IN"
      { st with
        top_cash_in_analysis := st.top_cash_in_analysis ++ [analysis]
        summary := updateSummary st.summary analysis }

/-- One iteration of the cash-out loop of `analyze_counterparties`. -/
def stepCashOut (lookup : String → BDCResult) (st : CounterpartyAnalysis) (t : Tx) :
    CounterpartyAnalysis :=
  match extract_document_from_transaction t with
  | none => st
  | some document =>
    if document = "" then st
    else
      let analysis := buildProfile (extract_processes_and_sanctions (lookup document)) t "CASH_OUT"
      { st with
        top_cash_out_analysis := st.top_cash_out_analysis ++ [analysis]
        summary := updateSummary st.summary analysis }

/-- The initial `counterparty_analysis` value. -/
def baseAnalysis (bdcAvailable : Bool) : CounterpartyAnalysis :=
  { top_cash_in_analysis := [], top_cash_out_analysis := []
    analysis_enabled := bdcAvailable
    summary :=
      { total_counterparties_analyzed := 0, counterparties_with_processes := 0
        counterparties_with_sanctions := 0, high_risk_counterparties := 0 } }

/-- Shallow embedding of `analyze_counterparties` (functions.py, lines
145-413).  `bdcAvailable` models `BDC_AVAILABLE`, `lookup` the external
`analyze_document` collaborator, and `user_id` is only used for logging in
the source. -/
def analyze_counterparties (bdcAvailable : Bool) (lookup : String → BDCResult)
    (user_id : Int) (cash_in_list cash_out_list : List Tx) : CounterpartyAnalysis :=
  if !bdcAvailable then baseAnalysis bdcAvailable
  else
    let top_cash_in := (sortDesc cash_in_list).take 3
    let st := top_cash_in.foldl (stepCashIn lookup) (baseAnalysis bdcAvailable)
    let top_cash_out := (sortDesc cash_out_list).take 3
    top_cash_out.foldl (stepCashOut lookup) st

/-! ### Report builders

`merchant_report` and `cardholder_report` issue one BigQuery fetch per data
source and assemble the dossier.  The query layer is external, so each query
result is a parameter: a list of rows (`Rec`, an association-list record,
already numerically normalized) or, for the PIX concentration source, a list
of `Tx` rows.  A query that fails or matches nothing yields `[]`, exactly as
`execute_query` returns an empty DataFrame on error. -/

/-- A generic normalized row (association-list dictionary). -/
abbrev Rec := List (String × String)

/-- The merchant dossier. -/
structure MerchantReport where
  merchant_info : Rec
  total_cash_in_pix : Int
  total_cash_out_pix : Int
  total_cash_in_pix_atypical_hours : Int
  total_cash_out_pix_atypical_hours : Int
  issuing_concentration : List Rec
  transaction_concentration : List Rec
  pix_cash_in : List Tx
  pix_cash_out : List Tx
  offense_history : List Rec
  products_online : List Rec
  contacts : List Rec
  devices : List Rec
  lawsuit_data : List Rec
  denied_transactions : List Rec
  business_data : List Rec
  prison_transactions : List Rec
  sanctions_history : List Rec
  denied_pix_transactions : List Rec
  bets_pix_transfers : List Rec
  counterparty_analysis : CounterpartyAnalysis
deriving DecidableEq

/-- The cardholder dossier. -/
structure CardholderReport where
  cardholder_info : Rec
  total_cash_in_pix : Int
  total_cash_out_pix : Int
  total_cash_in_pix_atypical_hours : Int
  total_cash_out_pix_atypical_hours : Int
  issuing_concentration : List Rec
  pix_cash_in : List Tx
  pix_cash_out : List Tx
  offense_history : List Rec
  contacts : List Rec
  devices : List Rec
  lawsuit_data : List Rec
  business_data : List Rec
  prison_transactions : List Rec
  sanctions_history : List Rec
  denied_pix_transactions : List Rec
  bets_pix_transfers : List Rec
  counterparty_analysis : CounterpartyAnalysis
deriving DecidableEq

/-- Shallow embedding of `merchant_report` (functions.py, lines 415-527):
the guarded PIX split and totals, the first-row-or-empty profile collapse,
the empty-defaulted list fields, and the counterparty analysis over the
derived cash-in/cash-out lists. -/
def merchant_report (bdcAvailable : Bool) (lookup : String → BDCResult) (user_id : Int)
    (merchant_info issuing_concentration transaction_concentration offense_history
      products_online contacts devices lawsuit_data denied_transactions business_data
      prison_transactions sanctions_history denied_pix_transactions
      bets_pix_transfers : List Rec)
    (pix_concentration : List Tx) : MerchantReport :=
  let cash_in :=
    if pix_concentration.isEmpty then []
    else pix_concentration.filter (fun r => r.transaction_type == "Cash In")
  let cash_out :=
    if pix_concentration.isEmpty then []
    else pix_concentration.filter (fun r => r.transaction_type == "Cash Out")
  let total_cash_in_pix :=
    if pix_concentration.isEmpty then 0 else (cash_in.map (fun r => r.pix_amount.getD 0)).sum
  let total_cash_out_pix :=
    if pix_concentration.isEmpty then 0 else (cash_out.map (fun r => r.pix_amount.getD 0)).sum
  let total_cash_in_pix_atypical_hours :=
    if pix_concentration.isEmpty then 0
    else (cash_in.map (fun r => r.pix_amount_atypical_hours.getD 0)).sum
  let total_cash_out_pix_atypical_hours :=
    if pix_concentration.isEmpty then 0
    else (cash_out.map (fun r => r.pix_amount_atypical_hours.getD 0)).sum
  { merchant_info := merchant_info.headD []
    total_cash_in_pix := total_cash_in_pix
    total_cash_out_pix := total_cash_out_pix
    total_cash_in_pix_atypical_hours := total_cash_in_pix_atypical_hours
    total_cash_out_pix_atypical_hours := total_cash_out_pix_atypical_hours
    issuing_concentration := if issuing_concentration.isEmpty then [] else issuing_concentration
    transaction_concentration :=
      if transaction_concentration.isEmpty then [] else transaction_concentration
    pix_cash_in := if cash_in.isEmpty then [] else cash_in
    pix_cash_out := if cash_out.isEmpty then [] else cash_out
    offense_history := if offense_history.isEmpty then [] else offense_history
    products_online := if products_online.isEmpty then [] else products_online
    contacts := if contacts.isEmpty then [] else contacts
    devices := if devices.isEmpty then [] else devices
    lawsuit_data := if lawsuit_data.isEmpty then [] else lawsuit_data
    denied_transactions := if denied_transactions.isEmpty then [] else denied_transactions
    business_data := if business_data.isEmpty then [] else business_data
    prison_transactions := if prison_transactions.isEmpty then [] else prison_transactions
    sanctions_history := if sanctions_history.isEmpty then [] else sanctions_history
    denied_pix_transactions :=
      if denied_pix_transactions.isEmpty then [] else denied_pix_transactions
    bets_pix_transfers := if bets_pix_transfers.isEmpty then [] else bets_pix_transfers
    counterparty_analysis :=
      analyze_counterparties bdcAvailable lookup user_id
        (if cash_in.isEmpty then [] else cash_in)
        (if cash_out.isEmpty then [] else cash_out) }

/-- Shallow embedding of `cardholder_report` (functions.py, lines 529-620). -/
def cardholder_report (bdcAvailable : Bool) (lookup : String → BDCResult) (user_id : Int)
    (cardholder_info issuing_concentration offense_history contacts devices lawsuit_data
      business_data prison_transactions sanctions_history denied_pix_transactions
      bets_pix_transfers : List Rec)
    (pix_concentration : List Tx) : CardholderReport :=
  let cash_in :=
    if pix_concentration.isEmpty then []
    else pix_concentration.filter (fun r => r.transaction_type == "Cash In")
  let cash_out :=
    if pix_concentration.isEmpty then []
    else pix_concentration.filter (fun r => r.transaction_type == "Cash Out")
  let total_cash_in_pix :=
    if pix_concentration.isEmpty then 0 else (cash_in.map (fun r => r.pix_amount.getD 0)).sum
  let total_cash_out_pix :=
    if pix_concentration.isEmpty then 0 else (cash_out.map (fun r => r.pix_amount.getD 0)).sum
  let total_cash_in_pix_atypical_hours :=
    if pix_concentration.isEmpty then 0
    else (cash_in.map (fun r => r.pix_amount_atypical_hours.getD 0)).sum
  let total_cash_out_pix_atypical_hours :=
    if pix_concentration.isEmpty then 0
    else (cash_out.map (fun r => r.pix_amount_atypical_hours.getD 0)).sum
  { cardholder_info := cardholder_info.headD []
    total_cash_in_pix := total_cash_in_pix
    total_cash_out_pix := total_cash_out_pix
    total_cash_in_pix_atypical_hours := total_cash_in_pix_atypical_hours
    total_cash_out_pix_atypical_hours := total_cash_out_pix_atypical_hours
    issuing_concentration := if issuing_concentration.isEmpty then [] else issuing_concentration
    pix_cash_in := if cash_in.isEmpty then [] else cash_in
    pix_cash_out := if cash_out.isEmpty then [] else cash_out
    offense_history := if offense_history.isEmpty then [] else offense_history
    contacts := if contacts.isEmpty then [] else contacts
    devices := if devices.isEmpty then [] else devices
    lawsuit_data := if lawsuit_data.isEmpty then [] else lawsuit_data
    business_data := if business_data.isEmpty then [] else business_data
    prison_transactions := if prison_transactions.isEmpty then [] else prison_transactions
    sanctions_history := if sanctions_history.isEmpty then [] else sanctions_history
    denied_pix_transactions :=
      if denied_pix_transactions.isEmpty then [] else denied_pix_transactions
    bets_pix_transfers := if bets_pix_transfers.isEmpty then [] else bets_pix_transfers
    counterparty_analysis :=
      analyze_counterparties bdcAvailable lookup user_id
        (if cash_in.isEmpty then [] else cash_in)
        (if cash_out.isEmpty then [] else cash_out) }

/-! ### Helper lemmas: substring containment -/

theorem startsWith_append {n h : List Char} (t : List Char)
    (hs : startsWith n h = true) : startsWith n (h ++ t) = true := by
  induction n generalizing h with
  | nil => simp [startsWith]
  | cons a as ih =>
    cases h with
    | nil => simp [startsWith] at hs
    | cons b bs =>
      simp only [startsWith, Bool.and_eq_true] at hs
      simp only [List.cons_append, startsWith, Bool.and_eq_true]
      exact ⟨hs.1, ih hs.2⟩

theorem containsSub_append {n h : List Char} (t : List Char)
    (hc : containsSub n h = true) : containsSub n (h ++ t) = true := by
  induction h with
  | nil =>
    cases n with
    | nil =>
      cases t with
      | nil => simpa [containsSub] using hc
      | cons c cs => simp [containsSub, startsWith]
    | cons a as => simp [containsSub, startsWith] at hc
  | cons c cs ih =>
    simp only [containsSub, Bool.or_eq_true] at hc
    rcases hc with hc | hc
    · simp only [List.cons_append, containsSub, Bool.or_eq_true]
      exact Or.inl (startsWith_append t hc)
    · simp only [List.cons_append, containsSub, Bool.or_eq_true]
      exact Or.inr (ih hc)

theorem containsNormalizar_append {h : List Char} (t : List Char)
    (hc : containsNormalizar h = true) : containsNormalizar (h ++ t) = true := by
  unfold containsNormalizar at hc ⊢
  rw [lowerL, List.map_append]
  exact containsSub_append _ hc

/-! ### Helper lemmas: the stable descending sort -/

theorem mem_insertTx {a x : Tx} {l : List Tx} :
    a ∈ insertTx x l ↔ a = x ∨ a ∈ l := by
  induction l with
  | nil => simp [insertTx]
  | cons y ys ih =>
    by_cases h : amtOf x < amtOf y
    · simp only [insertTx, if_pos h, List.mem_cons, ih]
      tauto
    · simp only [insertTx, if_neg h, List.mem_cons]

theorem pairwise_insertTx {x : Tx} {l : List Tx}
    (hl : l.Pairwise (fun a b => amtOf b ≤ amtOf a)) :
    (insertTx x l).Pairwise (fun a b => amtOf b ≤ amtOf a) := by
  induction l with
  | nil => simp [insertTx]
  | cons y ys ih =>
    rw [List.pairwise_cons] at hl
    by_cases h : amtOf x < amtOf y
    · rw [insertTx, if_pos h, List.pairwise_cons]
      refine ⟨fun b hb => ?_, ih hl.2⟩
      rcases mem_insertTx.mp hb with rfl | hb
      · exact le_of_lt h
      · exact hl.1 b hb
    · rw [insertTx, if_neg h, List.pairwise_cons]
      push_neg at h
      refine ⟨fun b hb => ?_, List.pairwise_cons.mpr hl⟩
      rcases List.mem_cons.mp hb with rfl | hb
      · exact h
      · exact le_trans (hl.1 b hb) h

theorem sortDesc_pairwise (l : List Tx) :
    (sortDesc l).Pairwise (fun a b => amtOf b ≤ amtOf a) := by
  induction l with
  | nil => simp [sortDesc]
  | cons x xs ih => exact pairwise_insertTx ih

theorem insertTx_perm (x : Tx) (l : List Tx) : List.Perm (insertTx x l) (x :: l) := by
  induction l with
  | nil => simp [insertTx]
  | cons y ys ih =>
    by_cases h : amtOf x < amtOf y
    · rw [insertTx, if_pos h]
      exact (ih.cons y).trans (List.Perm.swap x y ys)
    · rw [insertTx, if_neg h]

theorem sortDesc_perm (l : List Tx) : List.Perm (sortDesc l) l := by
  induction l with
  | nil => simp [sortDesc]
  | cons x xs ih => exact (insertTx_perm x (sortDesc xs)).trans (ih.cons x)

theorem filter_insertTx (v : Int) (x : Tx) (l : List Tx) :
    (insertTx x l).filter (fun t => amtOf t == v)
      = (if amtOf x == v then [x] else []) ++ l.filter (fun t => amtOf t == v) := by
  induction l with
  | nil => by_cases h : amtOf x == v <;> simp [insertTx, List.filter, h]
  | cons y ys ih =>
    by_cases h : amtOf x < amtOf y
    · rw [insertTx, if_pos h]
      rcases Bool.eq_false_or_eq_true (amtOf y == v) with hy | hy
      · rcases Bool.eq_false_or_eq_true (amtOf x == v) with hx | hx
        · exfalso
          have hxv : amtOf x = v := by simpa using hx
          have hyv : amtOf y = v := by simpa using hy
          rw [hxv, hyv] at h
          exact lt_irrefl v h
        · simp [List.filter_cons, hy, hx, ih]
      · simp [List.filter_cons, hy, ih]
    · rw [insertTx, if_neg h]
      rcases Bool.eq_false_or_eq_true (amtOf x == v) with hx | hx
      · simp [List.filter_cons, hx]
      · simp [List.filter_cons, hx]

theorem sortDesc_filter (v : Int) (l : List Tx) :
    (sortDesc l).filter (fun t => amtOf t == v) = l.filter (fun t => amtOf t == v) := by
  induction l with
  | nil => simp [sortDesc]
  | cons x xs ih =>
    show (insertTx x (sortDesc xs)).filter (fun t => amtOf t == v) = _
    rw [filter_insertTx, ih, List.filter_cons]
    by_cases hx : amtOf x == v <;> simp [hx]

/-! ### Helper lemmas: the counterparty loops -/

theorem stepCashIn_not_found (lookup : String → BDCResult) (st : CounterpartyAnalysis)
    (t : Tx) (h : docFound t = false) : stepCashIn lookup st t = st := by
  unfold docFound at h
  cases hd : extract_document_from_transaction t with
  | none => simp [stepCashIn, hd]
  | some d =>
    rw [hd] at h
    simp only [Option.getD_some, bne_eq_false_iff_eq] at h
    simp [stepCashIn, hd, h]

theorem stepCashOut_not_found (lookup : String → BDCResult) (st : CounterpartyAnalysis)
    (t : Tx) (h : docFound t = false) : stepCashOut lookup st t = st := by
  unfold docFound at h
  cases hd : extract_document_from_transaction t with
  | none => simp [stepCashOut, hd]
  | some d =>
    rw [hd] at h
    simp only [Option.getD_some, bne_eq_false_iff_eq] at h
    simp [stepCashOut, hd, h]

theorem stepCashIn_found (lookup : String → BDCResult) (st : CounterpartyAnalysis)
    (t : Tx) (h : docFound t = true) :
    (stepCashIn lookup st t).top_cash_in_analysis.length
        = st.top_cash_in_analysis.length + 1
      ∧ (stepCashIn lookup st t).top_cash_out_analysis = st.top_cash_out_analysis
      ∧ (stepCashIn lookup st t).analysis_enabled = st.analysis_enabled
      ∧ (stepCashIn lookup st t).summary.total_counterparties_analyzed
        = st.summary.total_counterparties_analyzed + 1
      ∧ (stepCashIn lookup st t).summary.counterparties_with_processes
        ≤ st.summary.counterparties_with_processes + 1
      ∧ (stepCashIn lookup st t).summary.counterparties_with_sanctions
        ≤ st.summary.counterparties_with_sanctions + 1
      ∧ (stepCashIn lookup st t).summary.high_risk_counterparties
        ≤ st.summary.high_risk_counterparties + 1 := by
  unfold docFound at h
  cases hd : extract_document_from_transaction t with
  | none => rw [hd] at h; simp at h
  | some d =>
    rw [hd] at h
    simp only [Option.getD_some] at h
    have hne : ¬(d = "") := by simpa using h
    refine ⟨?_, ?_, ?_, ?_, ?_, ?_, ?_⟩ <;>
      simp only [stepCashIn, hd, hne, if_neg hne, updateSummary] <;>
      (try simp) <;> (try (split <;> omega))

theorem stepCashOut_found (lookup : String → BDCResult) (st : CounterpartyAnalysis)
    (t : Tx) (h : docFound t = true) :
    (stepCashOut lookup st t).top_cash_out_analysis.length
        = st.top_cash_out_analysis.length + 1
      ∧ (stepCashOut lookup st t).top_cash_in_analysis = st.top_cash_in_analysis
      ∧ (stepCashOut lookup st t).analysis_enabled = st.analysis_enabled
      ∧ (stepCashOut lookup st t).summary.total_counterparties_analyzed
        = st.summary.total_counterparties_analyzed + 1
      ∧ (stepCashOut lookup st t).summary.counterparties_with_processes
        ≤ st.summary.counterparties_with_processes + 1
      ∧ (stepCashOut lookup st t).summary.counterparties_with_sanctions
        ≤ st.summary.counterparties_with_sanctions + 1
      ∧ (stepCashOut lookup st t).summary.high_risk_counterparties
        ≤ st.summary.high_risk_counterparties + 1 := by
  unfold docFound at h
  cases hd : extract_document_from_transaction t with
  | none => rw [hd] at h; simp at h
  | some d =>
    rw [hd] at h
    simp only [Option.getD_some] at h
    have hne : ¬(d = "") := by simpa using h
    refine ⟨?_, ?_, ?_, ?_, ?_, ?_, ?_⟩ <;>
      simp only [stepCashOut, hd, hne, if_neg hne, updateSummary] <;>
      (try simp) <;> (try (split <;> omega))

theorem foldIn_spec (lookup : String → BDCResult) (txs : List Tx)
    (st : CounterpartyAnalysis) :
    (txs.foldl (stepCashIn lookup) st).top_cash_in_analysis.length
        = st.top_cash_in_analysis.length + txs.countP docFound
      ∧ (txs.foldl (stepCashIn lookup) st).top_cash_out_analysis = st.top_cash_out_analysis
      ∧ (txs.foldl (stepCashIn lookup) st).analysis_enabled = st.analysis_enabled
      ∧ (txs.foldl (stepCashIn lookup) st).summary.total_counterparties_analyzed
        = st.summary.total_counterparties_analyzed + txs.countP docFound
      ∧ (txs.foldl (stepCashIn lookup) st).summary.counterparties_with_processes
        ≤ st.summary.counterparties_with_processes + txs.countP docFound
      ∧ (txs.foldl (stepCashIn lookup) st).summary.counterparties_with_sanctions
        ≤ st.summary.counterparties_with_sanctions + txs.countP docFound
      ∧ (txs.foldl (stepCashIn lookup) st).summary.high_risk_counterparties
        ≤ st.summary.high_risk_counterparties + txs.countP docFound := by
  induction txs generalizing st with
  | nil => simp
  | cons t ts ih =>
    rw [List.foldl_cons, List.countP_cons]
    cases hf : docFound t with
    | false =>
      rw [stepCashIn_not_found lookup st t hf]
      simpa [hf] using ih st
    | true =>
      obtain ⟨s1, s2, s3, s4, s5, s6, s7⟩ := stepCashIn_found lookup st t hf
      obtain ⟨h1, h2, h3, h4, h5, h6, h7⟩ := ih (stepCashIn lookup st t)
      simp only [hf, if_pos]
      refine ⟨?_, ?_, ?_, ?_, ?_, ?_, ?_⟩
      · rw [h1, s1]; omega
      · rw [h2, s2]
      · rw [h3, s3]
      · rw [h4, s4]; omega
      · omega
      · omega
      · omega

theorem foldOut_spec (lookup : String → BDCResult) (txs : List Tx)
    (st : CounterpartyAnalysis) :
    (txs.foldl (stepCashOut lookup) st).top_cash_out_analysis.length
        = st.top_cash_out_analysis.length + txs.countP docFound
      ∧ (txs.foldl (stepCashOut lookup) st).top_cash_in_analysis = st.top_cash_in_analysis
      ∧ (txs.foldl (stepCashOut lookup) st).analysis_enabled = st.analysis_enabled
      ∧ (txs.foldl (stepCashOut lookup) st).summary.total_counterparties_analyzed
        = st.summary.total_counterparties_analyzed + txs.countP docFound
      ∧ (txs.foldl (stepCashOut lookup) st).summary.counterparties_with_processes
        ≤ st.summary.counterparties_with_processes + txs.countP docFound
      ∧ (txs.foldl (stepCashOut lookup) st).summary.counterparties_with_sanctions
        ≤ st.summary.counterparties_with_sanctions + txs.countP docFound
      ∧ (txs.foldl (stepCashOut lookup) st).summary.high_risk_counterparties
        ≤ st.summary.high_risk_counterparties + txs.countP docFound := by
  induction txs generalizing st with
  | nil => simp
  | cons t ts ih =>
    rw [List.foldl_cons, List.countP_cons]
    cases hf : docFound t with
    | false =>
      rw [stepCashOut_not_found lookup st t hf]
      simpa [hf] using ih st
    | true =>
      obtain ⟨s1, s2, s3, s4, s5, s6, s7⟩ := stepCashOut_found lookup st t hf
      obtain ⟨h1, h2, h3, h4, h5, h6, h7⟩ := ih (stepCashOut lookup st t)
      simp only [hf, if_pos]
      refine ⟨?_, ?_, ?_, ?_, ?_, ?_, ?_⟩
      · rw [h1, s1]; omega
      · rw [h2, s2]
      · rw [h3, s3]
      · rw [h4, s4]; omega
      · omega
      · omega
      · omega

/-! ### Helper lemmas: sanctions extraction -/

theorem extract_sanctions_eq (bdc : BDCResult) :
    (extract_processes_and_sanctions bdc).sanctions
      = collectSanctions ((personOf bdc).bind (·.kycData)) := by
  cases bdc with
  | none => simp [extract_processes_and_sanctions, personOf, emptyAnalysis, collectSanctions]
  | some b =>
    cases hb : b.result with
    | none =>
      simp [extract_processes_and_sanctions, personOf, hb, emptyAnalysis, collectSanctions]
    | some l =>
      cases l with
      | nil =>
        simp [extract_processes_and_sanctions, personOf, hb, emptyAnalysis, collectSanctions]
      | cons p ps =>
        simp [extract_processes_and_sanctions, personOf, hb]

theorem collect_history_rate (kyc : Option Kyc) (t st so de : String) (r : Int)
    (h : SanctionSignal.history t st so de r ∈ collectSanctions kyc) : r = 100 := by
  cases kyc with
  | none => simp [collectSanctions] at h
  | some k =>
    simp only [collectSanctions, List.mem_append, List.mem_map, List.mem_filter] at h
    rcases h with ((⟨p, hp, he⟩ | ⟨s, ⟨hs, hrate⟩, he⟩) | hflag) | hflag
    · simp at he
    · simp only [mkHistorySignal, SanctionSignal.history.injEq] at he
      have hr : s.matchRate.getD 0 = 100 := by simpa using hrate
      omega
    · by_cases hb : k.isCurrentlyPEP <;> simp [hb] at hflag
    · by_cases hb : k.isCurrentlySanctioned <;> simp [hb] at hflag

theorem mkHistorySignal_mem_collect {k : Kyc} {s : SanctionEntry}
    (hs : s ∈ k.sanctionsHistory) (hr : s.matchRate.getD 0 = 100) :
    mkHistorySignal s ∈ collectSanctions (some k) := by
  have hmem : mkHistorySignal s
      ∈ (k.sanctionsHistory.filter (fun e => e.matchRate.getD 0 == 100)).map mkHistorySignal :=
    List.mem_map_of_mem _ (List.mem_filter.mpr ⟨hs, by simp [hr]⟩)
  simp only [collectSanctions, List.mem_append]
  tauto

/-! ### Helper lemmas: `format_export_payload` branches -/

theorem fep_error (user_id : Int) (description : List Char) (bv : Bool)
    (h : has_error (cleanDescription description) = true) :
    format_export_payload user_id description bv =
      { user_id := user_id, description := cleanDescription description
        analysis_type := "manual", conclusion := "", priority := "high"
        automatic_pipeline := true, offense_group := "illegal_activity"
        offense_name := "money_laundering", related_analyses := [] } := by
  simp [format_export_payload, h]

theorem fep_noerror (user_id : Int) (description : List Char) (bv : Bool)
    (h : has_error (cleanDescription description) = false) :
    format_export_payload user_id description bv =
      { user_id := user_id
        description := descAfterScore (extractRiskScore (cleanDescription description))
          (cleanDescription description)
        analysis_type := "manual"
        conclusion :=
          if containsNormalizar (descAfterScore (extractRiskScore (cleanDescription description))
                (cleanDescription description))
              && !((scoreDecision (extractRiskScore (cleanDescription description))).1 == "offense")
          then "normal"
          else (scoreDecision (extractRiskScore (cleanDescription description))).1
        priority := (scoreDecision (extractRiskScore (cleanDescription description))).2
        automatic_pipeline := true, offense_group := "illegal_activity"
        offense_name := "money_laundering", related_analyses := [] } := by
  simp [format_export_payload, h]

/-! ### Claim theorems -/

/-- C1: for every sanitized description with no error marker, the
score-to-decision mapping of `format_export_payload` is total and
non-overlapping: scores 0-5 (0 being the unparseable default) map to
("normal", "high"), 6 to ("normal", "high"), 7-8 to ("suspicious", "mid"),
9 to ("suspicious", "high"), 10 to ("offense", "high"); every score up to 10
lands on exactly one of these pairs, and on a description with no error
marker (and no override phrase) the payload conclusion and priority are
exactly this mapping of the extracted score. -/
theorem c1_score_decision_mapping :
    (∀ s : Nat, s ≤ 5 → scoreDecision s = ("normal", "high"))
  ∧ scoreDecision 6 = ("normal", "high")
  ∧ (∀ s : Nat, 7 ≤ s → s ≤ 8 → scoreDecision s = ("suspicious", "mid"))
  ∧ scoreDecision 9 = ("suspicious", "high")
  ∧ scoreDecision 10 = ("offense", "high")
  ∧ (∀ s : Nat, s ≤ 10 → scoreDecision s ∈
      [("normal", "high"), ("suspicious", "mid"), ("suspicious", "high"), ("offense", "high")])
  ∧ ∀ (user_id : Int) (description : List Char) (bv : Bool),
      has_error (cleanDescription description) = false →
      containsNormalizar (descAfterScore (extractRiskScore (cleanDescription description))
        (cleanDescription description)) = false →
      ((format_export_payload user_id description bv).conclusion,
        (format_export_payload user_id description bv).priority)
        = scoreDecision (extractRiskScore (cleanDescription description)) := by
  refine ⟨?_, by decide, ?_, by decide, by decide, ?_, ?_⟩
  · intro s hs
    simp [scoreDecision, hs]
  · intro s h7 h8
    have h5 : ¬(s ≤ 5) := by omega
    have h6 : ¬(s ≤ 6) := by omega
    simp [scoreDecision, h5, h6, h8]
  · intro s hs
    interval_cases s <;> simp [scoreDecision]
  · intro user_id description bv h hn
    rw [fep_noerror _ _ _ h]
    simp [hn]

/-- Witness for C1 at concrete inputs: the mapping evaluated at scores 3, 7
and 10, and the end-to-end payload for a marker-free description carrying
score 3. -/
theorem c1_score_decision_mapping_witness :
    scoreDecision 3 = ("normal", "high")
  ∧ scoreDecision 7 = ("suspicious", "mid")
  ∧ scoreDecision 10 ∈
      [("normal", "high"), ("suspicious", "mid"), ("suspicious", "high"), ("offense", "high")]
  ∧ ((format_export_payload 1 ("Analise pronta. Risco de Lavagem de Dinheiro: 3/10".data) true).conclusion,
      (format_export_payload 1 ("Analise pronta. Risco de Lavagem de Dinheiro: 3/10".data) true).priority)
      = ("normal", "high") := by
  refine ⟨c1_score_decision_mapping.1 3 (by decide),
    c1_score_decision_mapping.2.2.1 7 (by decide) (by decide),
    c1_score_decision_mapping.2.2.2.2.2.1 10 (by decide), ?_⟩
  have h := c1_score_decision_mapping.2.2.2.2.2.2 1
    ("Analise pronta. Risco de Lavagem de Dinheiro: 3/10".data) true (by decide) (by decide)
  rw [h]
  decide

/-- C4: when the sanitized description contains an error marker (such as
"muitas transações"), the payload gets conclusion `""`, priority `"high"`,
and the description is passed through untouched: no score extraction (and
none of its note-appending side effects) happens. -/
theorem c4_error_markers (user_id : Int) (description : List Char) (bv : Bool)
    (h : has_error (cleanDescription description) = true) :
    (format_export_payload user_id description bv).conclusion = ""
  ∧ (format_export_payload user_id description bv).priority = "high"
  ∧ (format_export_payload user_id description bv).description
      = cleanDescription description := by
  rw [fep_error _ _ _ h]
  exact ⟨rfl, rfl, rfl⟩

/-- Witness for C4: a description containing "muitas transações" (and even an
explicit 10/10 score line) yields the empty conclusion with high priority. -/
theorem c4_error_markers_witness :
    (format_export_payload 2
        ("O caso tem muitas transações. Risco de Lavagem de Dinheiro: 10/10".data)
        false).conclusion = ""
  ∧ (format_export_payload 2
        ("O caso tem muitas transações. Risco de Lavagem de Dinheiro: 10/10".data)
        false).priority = "high" := by
  have h := c4_error_markers 2
    ("O caso tem muitas transações. Risco de Lavagem de Dinheiro: 10/10".data) false (by decide)
  exact ⟨h.1, h.2.1⟩

/-- C6: on a marker-free description containing the phrase
"normalizar o caso" (case-insensitive), if the mapped conclusion is not
"offense", `format_export_payload` forces the conclusion to "normal". -/
theorem c6_normalizar_override (user_id : Int) (description : List Char) (bv : Bool)
    (h : has_error (cleanDescription description) = false)
    (hn : containsNormalizar (cleanDescription description) = true)
    (ho : (scoreDecision (extractRiskScore (cleanDescription description))).1 ≠ "offense") :
    (format_export_payload user_id description bv).conclusion = "normal" := by
  rw [fep_noerror _ _ _ h]
  have hn2 : containsNormalizar (descAfterScore (extractRiskScore (cleanDescription description))
      (cleanDescription description)) = true := by
    unfold descAfterScore
    repeat' split
    all_goals first
      | exact hn
      | exact containsNormalizar_append _ hn
  have hbe : ((scoreDecision (extractRiskScore (cleanDescription description))).1
      == "offense") = false := beq_eq_false_iff_ne.mpr ho
  simp [hn2, hbe]

/-- Witness for C6: a score-9 description ("suspicious" tier) asking to
normalize the case comes out as "normal". -/
theorem c6_normalizar_override_witness :
    (format_export_payload 4
        ("Risco de Lavagem de Dinheiro: 9/10. Recomendo normalizar o caso.".data)
        true).conclusion = "normal" :=
  c6_normalizar_override 4
    ("Risco de Lavagem de Dinheiro: 9/10. Recomendo normalizar o caso.".data) true
    (by decide) (by decide) (by decide)

/-- C10: an out-of-range score above 10 ("12/10") is extracted as 12 and
falls into the extreme tier: conclusion "offense", priority "high". -/
theorem c10_out_of_range_score :
    extractRiskScore (cleanDescription ("Risco de Lavagem de Dinheiro: 12/10".data)) = 12
  ∧ (format_export_payload 3 ("Risco de Lavagem de Dinheiro: 12/10".data) false).conclusion
      = "offense"
  ∧ (format_export_payload 3 ("Risco de Lavagem de Dinheiro: 12/10".data) false).priority
      = "high" := by
  refine ⟨by decide, by decide, by decide⟩

/-- A lookup response for the C2 witness: one person whose KYC carries two
sanction-history entries, one with `MatchRate` 100, one with 80. -/
def bdcTwoSanctions : BDCResult :=
  some
    { result := some
        [ { basicData := some { taxIdNumber := some "11122233344", name := some "Fulano" }
            processes := none
            kycData := some
              { pepHistory := []
                sanctionsHistory :=
                  [ { typ := some "Warrant", standardizedSanctionType := some "warrant"
                      source := some "CNJ", details := none, matchRate := some 100 }
                  , { typ := some "Sanction", standardizedSanctionType := some "sanction"
                      source := some "OFAC", details := none, matchRate := some 80 } ]
                isCurrentlyPEP := false
                isCurrentlySanctioned := false } } ] }

/-- C2: in `extract_processes_and_sanctions`, a `SanctionsHistory` entry with
`MatchRate` strictly below 100 never appears in the resulting sanctions
sequence, and an entry with `MatchRate` exactly 100 always appears in it. -/
theorem c2_match_rate_filter (bdc : BDCResult) (s : SanctionEntry)
    (hs : s ∈ sanctionsHistoryOf bdc) :
    (s.matchRate.getD 0 < 100 →
      mkHistorySignal s ∉ (extract_processes_and_sanctions bdc).sanctions)
  ∧ (s.matchRate.getD 0 = 100 →
      mkHistorySignal s ∈ (extract_processes_and_sanctions bdc).sanctions) := by
  rw [extract_sanctions_eq]
  unfold sanctionsHistoryOf at hs
  cases hk : (personOf bdc).bind (·.kycData) with
  | none => rw [hk] at hs; simp at hs
  | some k =>
    rw [hk] at hs
    constructor
    · intro hlt hmem
      unfold mkHistorySignal at hmem
      have h100 := collect_history_rate (some k) _ _ _ _ _ hmem
      omega
    · intro h100
      exact mkHistorySignal_mem_collect hs h100

/-- Witness for C2 on `bdcTwoSanctions`: the `MatchRate` 100 entry is kept,
the `MatchRate` 80 entry is discarded. -/
theorem c2_match_rate_filter_witness :
    mkHistorySignal
        { typ := some "Warrant", standardizedSanctionType := some "warrant"
          source := some "CNJ", details := none, matchRate := some 100 }
      ∈ (extract_processes_and_sanctions bdcTwoSanctions).sanctions
  ∧ mkHistorySignal
        { typ := some "Sanction", standardizedSanctionType := some "sanction"
          source := some "OFAC", details := none, matchRate := some 80 }
      ∉ (extract_processes_and_sanctions bdcTwoSanctions).sanctions := by
  constructor
  · exact (c2_match_rate_filter bdcTwoSanctions _ (by decide)).2 (by decide)
  · exact (c2_match_rate_filter bdcTwoSanctions _ (by decide)).1 (by decide)

/-- A lookup response for the C3 witness: a person with one lawsuit and one
`MatchRate` 100 sanction. -/
def bdcBoth : BDCResult :=
  some
    { result := some
        [ { basicData := some { taxIdNumber := some "99988877766", name := some "Beltrano" }
            processes := some
              { lawsuits :=
                  [ { number := some "0001", courtName := some "TJSP"
                      mainSubject := some "Fraude", typ := some "CRIMINAL"
                      courtLevel := some "1", courtType := some "CRIMINAL"
                      courtDistrict := some "SP" } ] }
            kycData := some
              { pepHistory := []
                sanctionsHistory :=
                  [ { typ := some "Warrant", standardizedSanctionType := some "warrant"
                      source := some "CNJ", details := none, matchRate := some 100 } ]
                isCurrentlyPEP := false
                isCurrentlySanctioned := false } } ] }

/-- C3: the risk level of an extracted counterparty profile follows a strict
first-match precedence: sanctions present gives ALTO; otherwise more than 3
(stored) processes gives MÉDIO; otherwise 1-3 processes gives BAIXO-MÉDIO;
otherwise BAIXO.  In particular a profile with both processes and sanctions
reports ALTO. -/
theorem c3_risk_level_precedence (bdc : BDCResult) :
    ((extract_processes_and_sanctions bdc).sanctions ≠ [] →
      (extract_processes_and_sanctions bdc).risk_level = "ALTO")
  ∧ ((extract_processes_and_sanctions bdc).sanctions = [] →
      3 < (extract_processes_and_sanctions bdc).processes.length →
      (extract_processes_and_sanctions bdc).risk_level = "MÉDIO")
  ∧ ((extract_processes_and_sanctions bdc).sanctions = [] →
      1 ≤ (extract_processes_and_sanctions bdc).processes.length →
      (extract_processes_and_sanctions bdc).processes.length ≤ 3 →
      (extract_processes_and_sanctions bdc).risk_level = "BAIXO-MÉDIO")
  ∧ ((extract_processes_and_sanctions bdc).sanctions = [] →
      (extract_processes_and_sanctions bdc).processes = [] →
      (extract_processes_and_sanctions bdc).risk_level = "BAIXO")
  ∧ ((extract_processes_and_sanctions bdc).sanctions ≠ [] →
      (extract_processes_and_sanctions bdc).processes ≠ [] →
      (extract_processes_and_sanctions bdc).risk_level = "ALTO") := by
  have base :
      (emptyAnalysis.sanctions ≠ [] → emptyAnalysis.risk_level = "ALTO")
    ∧ (emptyAnalysis.sanctions = [] → 3 < emptyAnalysis.processes.length →
        emptyAnalysis.risk_level = "MÉDIO")
    ∧ (emptyAnalysis.sanctions = [] → 1 ≤ emptyAnalysis.processes.length →
        emptyAnalysis.processes.length ≤ 3 → emptyAnalysis.risk_level = "BAIXO-MÉDIO")
    ∧ (emptyAnalysis.sanctions = [] → emptyAnalysis.processes = [] →
        emptyAnalysis.risk_level = "BAIXO")
    ∧ (emptyAnalysis.sanctions ≠ [] → emptyAnalysis.processes ≠ [] →
        emptyAnalysis.risk_level = "ALTO") := by
    refine ⟨fun h => absurd rfl h, fun _ h => by simp [emptyAnalysis] at h,
      fun _ h _ => by simp [emptyAnalysis] at h, fun _ _ => rfl, fun h => absurd rfl h⟩
  cases bdc with
  | none => exact base
  | some b =>
    cases hb : b.result with
    | none =>
      simpa only [extract_processes_and_sanctions, hb] using base
    | some l =>
      cases l with
      | nil => simpa only [extract_processes_and_sanctions, hb] using base
      | cons p ps =>
        simp only [extract_processes_and_sanctions, hb]
        by_cases hS : collectSanctions p.kycData = []
        · by_cases hL : lawsuitsOf p = []
          · refine ⟨fun h => absurd hS h, ?_, ?_, fun _ _ => ?_, fun h => absurd hS h⟩
            · intro _ hlen
              rw [hL] at hlen
              simp at hlen
            · intro _ hlen _
              rw [hL] at hlen
              simp at hlen
            · simp [hS, hL]
          · have hPe : (lawsuitsOf p).isEmpty = false := by
              simpa [List.isEmpty_iff] using hL
            refine ⟨fun h => absurd hS h, ?_, ?_, ?_, fun h => absurd hS h⟩
            · intro _ hlen
              have hlen2 : 3 < (lawsuitsOf p).length := by
                rw [List.length_map, List.length_take] at hlen
                omega
              simp [hS, hPe, hlen, hlen2]
            · intro _ _ hlen
              have hle : (lawsuitsOf p).length ≤ 3 := by
                rw [List.length_map, List.length_take] at hlen
                omega
              have hnlt : ¬(3 < ((lawsuitsOf p).take 10).length) := by
                rw [List.length_take]
                omega
              simp [hS, hPe, hnlt, hle]
            · intro _ hproc
              exfalso
              apply hL
              have : ((lawsuitsOf p).take 10) = [] := by
                have := congrArg List.length hproc
                simpa using this
              rcases List.take_eq_nil_iff.mp this with h10 | hnil
              · omega
              · exact hnil
        · have hSe : (collectSanctions p.kycData).isEmpty = false := by
            simpa [List.isEmpty_iff] using hS
          refine ⟨fun _ => ?_, fun h => absurd h hS, fun h => absurd h hS,
            fun h => absurd h hS, fun _ _ => ?_⟩
          · simp [hSe]
          · simp [hSe]

/-- Witness for C3 on `bdcBoth`: one process and one sanction give ALTO. -/
theorem c3_risk_level_precedence_witness :
    (extract_processes_and_sanctions bdcBoth).risk_level = "ALTO"
  ∧ (extract_processes_and_sanctions bdcBoth).processes ≠ []
  ∧ (extract_processes_and_sanctions bdcBoth).sanctions ≠ [] := by
  refine ⟨(c3_risk_level_precedence bdcBoth).2.2.2.2 (by decide) (by decide),
    by decide, by decide⟩

theorem extract_of_lookupFailed (r : BDCResult) (h : lookupFailed r = true) :
    extract_processes_and_sanctions r = emptyAnalysis := by
  cases r with
  | none => rfl
  | some b =>
    cases hb : b.result with
    | none => simp [extract_processes_and_sanctions, hb]
    | some l =>
      cases l with
      | nil => simp [extract_processes_and_sanctions, hb]
      | cons p ps => simp [lookupFailed, hb] at h

/-- C5: the counterparty selection of `analyze_counterparties` takes at most
3 records per direction from a stable descending sort of the input: the
sorted list is a permutation of the input, is pairwise descending by amount,
preserves the original relative order of records with equal amounts, treats
a missing/null amount as 0, and on empty input the whole analysis returns
the well-formed base value (no exception is possible: the embedding is a
total function). -/
theorem c5_top3_selection (bdcAvailable : Bool) (lookup : String → BDCResult)
    (user_id : Int) (l : List Tx) (v : Int) (t : Tx) :
    ((sortDesc l).take 3).length ≤ 3
  ∧ ((sortDesc l).take 3).Pairwise (fun a b => amtOf b ≤ amtOf a)
  ∧ (sortDesc l).filter (fun x => amtOf x == v) = l.filter (fun x => amtOf x == v)
  ∧ List.Perm (sortDesc l) l
  ∧ amtOf { t with pix_amount := none } = 0
  ∧ analyze_counterparties bdcAvailable lookup user_id [] []
      = baseAnalysis bdcAvailable := by
  refine ⟨?_, ?_, sortDesc_filter v l, sortDesc_perm l, rfl, ?_⟩
  · rw [List.length_take]
    omega
  · exact (sortDesc_pairwise l).sublist (List.take_sublist 3 _)
  · cases bdcAvailable <;> rfl

/-- C9: every `CounterpartyAnalysis` returned by `analyze_counterparties`
has at most 3 profiles per direction, a total equal to the combined number
of profiles (hence at most 6), and each specialised counter bounded by the
total. -/
theorem c9_summary_invariants (bdcAvailable : Bool) (lookup : String → BDCResult)
    (user_id : Int) (cin cout : List Tx) :
    (analyze_counterparties bdcAvailable lookup user_id cin cout).top_cash_in_analysis.length ≤ 3
  ∧ (analyze_counterparties bdcAvailable lookup user_id cin cout).top_cash_out_analysis.length ≤ 3
  ∧ (analyze_counterparties bdcAvailable lookup user_id cin cout).summary.total_counterparties_analyzed
      = (analyze_counterparties bdcAvailable lookup user_id cin cout).top_cash_in_analysis.length
        + (analyze_counterparties bdcAvailable lookup user_id cin cout).top_cash_out_analysis.length
  ∧ (analyze_counterparties bdcAvailable lookup user_id cin cout).summary.total_counterparties_analyzed ≤ 6
  ∧ (analyze_counterparties bdcAvailable lookup user_id cin cout).summary.counterparties_with_processes
      ≤ (analyze_counterparties bdcAvailable lookup user_id cin cout).summary.total_counterparties_analyzed
  ∧ (analyze_counterparties bdcAvailable lookup user_id cin cout).summary.counterparties_with_sanctions
      ≤ (analyze_counterparties bdcAvailable lookup user_id cin cout).summary.total_counterparties_analyzed
  ∧ (analyze_counterparties bdcAvailable lookup user_id cin cout).summary.high_risk_counterparties
      ≤ (analyze_counterparties bdcAvailable lookup user_id cin cout).summary.total_counterparties_analyzed := by
  cases bdcAvailable with
  | false => simp [analyze_counterparties, baseAnalysis]
  | true =>
    simp only [analyze_counterparties, Bool.not_true, Bool.false_eq_true, if_false,
      baseAnalysis]
    obtain ⟨i1, i2, i3, i4, i5, i6, i7⟩ :=
      foldIn_spec lookup ((sortDesc cin).take 3) (baseAnalysis true)
    obtain ⟨o1, o2, o3, o4, o5, o6, o7⟩ :=
      foldOut_spec lookup ((sortDesc cout).take 3)
        (((sortDesc cin).take 3).foldl (stepCashIn lookup) (baseAnalysis true))
    simp only [baseAnalysis, List.length_nil, Nat.zero_add]
      at i1 i2 i3 i4 i5 i6 i7 o1 o2 o3 o4 o5 o6 o7
    rw [i2] at o1
    simp only [List.length_nil, Nat.zero_add] at o1
    have hcin : ((sortDesc cin).take 3).countP docFound ≤ 3 := by
      have h1 := List.countP_le_length (p := docFound) (l := (sortDesc cin).take 3)
      rw [List.length_take] at h1
      omega
    have hcout : ((sortDesc cout).take 3).countP docFound ≤ 3 := by
      have h1 := List.countP_le_length (p := docFound) (l := (sortDesc cout).take 3)
      rw [List.length_take] at h1
      omega
    refine ⟨?_, ?_, ?_, ?_, ?_, ?_, ?_⟩
    · rw [congrArg List.length o2]
      omega
    · rw [o1]
      omega
    · rw [o4, i4, congrArg List.length o2, o1]
      omega
    · rw [o4, i4]
      omega
    · rw [o4, i4]
      omega
    · rw [o4, i4]
      omega
    · rw [o4, i4]
      omega

/-- C7: in `analyze_counterparties`, the aggregate total counts every
selected counterparty whose document was found, whatever the lookup returns
(so a failing lookup never aborts or uncounts anything); and for a failed
lookup (falsy response, missing `Result`, or empty `Result`) the resulting
profile has zero processes, zero sanctions and baseline risk. -/
theorem c7_lookup_failure_nonfatal (lookup : String → BDCResult) (user_id : Int)
    (cin cout : List Tx) (t : Tx) (ty : String) (d : String) :
    ((analyze_counterparties true lookup user_id cin cout).summary.total_counterparties_analyzed
      = ((sortDesc cin).take 3).countP docFound + ((sortDesc cout).take 3).countP docFound)
  ∧ (lookupFailed (lookup d) = true →
        (buildProfile (extract_processes_and_sanctions (lookup d)) t ty).processes = []
      ∧ (buildProfile (extract_processes_and_sanctions (lookup d)) t ty).sanctions = []
      ∧ (buildProfile (extract_processes_and_sanctions (lookup d)) t ty).has_processes = false
      ∧ (buildProfile (extract_processes_and_sanctions (lookup d)) t ty).has_sanctions = false
      ∧ (buildProfile (extract_processes_and_sanctions (lookup d)) t ty).risk_level = "BAIXO") := by
  constructor
  · simp only [analyze_counterparties, Bool.not_true, Bool.false_eq_true, if_false,
      baseAnalysis]
    obtain ⟨i1, i2, i3, i4, i5, i6, i7⟩ :=
      foldIn_spec lookup ((sortDesc cin).take 3) (baseAnalysis true)
    obtain ⟨o1, o2, o3, o4, o5, o6, o7⟩ :=
      foldOut_spec lookup ((sortDesc cout).take 3)
        (((sortDesc cin).take 3).foldl (stepCashIn lookup) (baseAnalysis true))
    simp only [baseAnalysis, Nat.zero_add] at i4 o4
    rw [o4, i4]
  · intro hfail
    rw [extract_of_lookupFailed (lookup d) hfail]
    exact ⟨rfl, rfl, rfl, rfl, rfl⟩

/-- A transaction record with every optional field absent. -/
def txEmpty : Tx :=
  { transaction_type := "Cash In", pix_amount := none, pix_amount_atypical_hours := none
    created_at := none, party := none, party_document_number := none
    gateway_document_number := none, document_number := none, cpf := none, cnpj := none
    counterparty_document := none, payer_document := none, receiver_document := none
    origin_document := none, destination_document := none }

/-- A lookup collaborator that always fails with an empty `Result` (the value
`analyze_document` returns on any network error). -/
def failLookup : String → BDCResult := fun _ => some { result := some [] }

/-- Witness for C7: with one documented cash-in counterparty and an
always-failing lookup, the counterparty is still counted (total = 1) and its
profile carries no processes and no sanctions. -/
theorem c7_lookup_failure_nonfatal_witness :
    (analyze_counterparties true failLookup 7
        [{ txEmpty with party_document_number := some "12345678900" }] []
      ).summary.total_counterparties_analyzed = 1
  ∧ (buildProfile (extract_processes_and_sanctions (failLookup "12345678900"))
        { txEmpty with party_document_number := some "12345678900" } "CASH_IN").processes = []
  ∧ (buildProfile (extract_processes_and_sanctions (failLookup "12345678900"))
        { txEmpty with party_document_number := some "12345678900" } "CASH_IN").sanctions = [] := by
  have h := c7_lookup_failure_nonfatal failLookup 7
    [{ txEmpty with party_document_number := some "12345678900" }] []
    { txEmpty with party_document_number := some "12345678900" } "CASH_IN" "12345678900"
  refine ⟨?_, (h.2 (by decide)).1, (h.2 (by decide)).2.1⟩
  rw [h.1]
  decide

/-- C8: in the report builders, an empty PIX concentration query yields 0 for
all four totals and empty PIX lists; an empty profile query yields an empty
subject mapping; and with every source empty the whole report is the
all-empty/all-zero dossier (absence of data yields defaults, never an
error: the builders are total functions). -/
theorem c8_empty_defaults (bdcAvailable : Bool) (lookup : String → BDCResult) (user_id : Int)
    (mi issu tc oh po co de la dt bd pt sh dpt bpt : List Rec) (pix : List Tx) :
    ((merchant_report bdcAvailable lookup user_id mi issu tc oh po co de la dt bd pt
          sh dpt bpt []).total_cash_in_pix = 0
      ∧ (merchant_report bdcAvailable lookup user_id mi issu tc oh po co de la dt bd pt
          sh dpt bpt []).total_cash_out_pix = 0
      ∧ (merchant_report bdcAvailable lookup user_id mi issu tc oh po co de la dt bd pt
          sh dpt bpt []).total_cash_in_pix_atypical_hours = 0
      ∧ (merchant_report bdcAvailable lookup user_id mi issu tc oh po co de la dt bd pt
          sh dpt bpt []).total_cash_out_pix_atypical_hours = 0
      ∧ (merchant_report bdcAvailable lookup user_id mi issu tc oh po co de la dt bd pt
          sh dpt bpt []).pix_cash_in = []
      ∧ (merchant_report bdcAvailable lookup user_id mi issu tc oh po co de la dt bd pt
          sh dpt bpt []).pix_cash_out = [])
  ∧ (merchant_report bdcAvailable lookup user_id [] issu tc oh po co de la dt bd pt
        sh dpt bpt pix).merchant_info = []
  ∧ ((cardholder_report bdcAvailable lookup user_id mi issu oh co de la bd pt sh dpt
          bpt []).total_cash_in_pix = 0
      ∧ (cardholder_report bdcAvailable lookup user_id mi issu oh co de la bd pt sh dpt
          bpt []).total_cash_out_pix = 0
      ∧ (cardholder_report bdcAvailable lookup user_id mi issu oh co de la bd pt sh dpt
          bpt []).total_cash_in_pix_atypical_hours = 0
      ∧ (cardholder_report bdcAvailable lookup user_id mi issu oh co de la bd pt sh dpt
          bpt []).total_cash_out_pix_atypical_hours = 0
      ∧ (cardholder_report bdcAvailable lookup user_id mi issu oh co de la bd pt sh dpt
          bpt []).pix_cash_in = []
      ∧ (cardholder_report bdcAvailable lookup user_id mi issu oh co de la bd pt sh dpt
          bpt []).pix_cash_out = [])
  ∧ (cardholder_report bdcAvailable lookup user_id [] issu oh co de la bd pt sh dpt
        bpt pix).cardholder_info = []
  ∧ merchant_report bdcAvailable lookup user_id [] [] [] [] [] [] [] [] [] [] [] [] [] [] []
      = { merchant_info := [], total_cash_in_pix := 0, total_cash_out_pix := 0
          total_cash_in_pix_atypical_hours := 0, total_cash_out_pix_atypical_hours := 0
          issuing_concentration := [], transaction_concentration := []
          pix_cash_in := [], pix_cash_out := [], offense_history := []
          products_online := [], contacts := [], devices := [], lawsuit_data := []
          denied_transactions := [], business_data := [], prison_transactions := []
          sanctions_history := [], denied_pix_transactions := [], bets_pix_transfers := []
          counterparty_analysis := baseAnalysis bdcAvailable }
  ∧ cardholder_report bdcAvailable lookup user_id [] [] [] [] [] [] [] [] [] [] [] []
      = { cardholder_info := [], total_cash_in_pix := 0, total_cash_out_pix := 0
          total_cash_in_pix_atypical_hours := 0, total_cash_out_pix_atypical_hours := 0
          issuing_concentration := [], pix_cash_in := [], pix_cash_out := []
          offense_history := [], contacts := [], devices := [], lawsuit_data := []
          business_data := [], prison_transactions := [], sanctions_history := []
          denied_pix_transactions := [], bets_pix_transfers := []
          counterparty_analysis := baseAnalysis bdcAvailable } := by
  refine ⟨⟨rfl, rfl, rfl, rfl, rfl, rfl⟩, rfl, ⟨rfl, rfl, rfl, rfl, rfl, rfl⟩, rfl, ?_, ?_⟩
  · cases bdcAvailable <;> rfl
  · cases bdcAvailable <;> rfl

end Lavandowski
